import Mathlib

/-
Verification of the simulated-annealing TSP solver in src/Task1b.py.

Shallow embedding conventions:
- Python floats are modelled by real numbers where the value itself matters
  (coordinates, distances) and by rationals in the control logic of the solver,
  where only ordered-field structure is used.
- math.exp is modelled by an explicit function parameter expf, and the
  tour-cost function used by the solver loop by a parameter cost, so that the
  control flow of the loop is stated for the actual functions the source composes.
- Randomness (random.shuffle, random.randint, random.random) is modelled by
  explicit inputs: the initial tour, and a stream draws of per-iteration
  values, matching the values the global generator would produce.
-/

namespace Task1b

/-- A city coordinate pair, as produced by generate_cities in Task1b.py. -/
abbrev Point : Type := ℝ × ℝ

/-- Euclidean distance between two cities; embeds distance_between in
Task1b.py: sqrt (dx * dx + dy * dy). -/
noncomputable def distance_between (city_a city_b : Point) : ℝ :=
  Real.sqrt ((city_a.1 - city_b.1) * (city_a.1 - city_b.1) +
    (city_a.2 - city_b.2) * (city_a.2 - city_b.2))

/-- Total cyclic tour length; embeds evaluate_tour_length in Task1b.py: a
loop over positions accumulating segment distances into a running total that
starts at 0.0.  List indexing is total here via getD; the claims only ever
index in bounds. -/
noncomputable def evaluate_tour_length (tour : List ℕ) (cities : List Point) : ℝ :=
  (List.range tour.length).foldl
    (fun total_distance position =>
      total_distance +
        distance_between (cities.getD (tour.getD position 0) (0, 0))
          (cities.getD (tour.getD ((position + 1) % tour.length) 0) (0, 0)))
    0

/-- Two-opt move; embeds generate_two_opt_neighbor in Task1b.py, which
returns tour[:s] + tour[s:e+1][::-1] + tour[e+1:].  Python slices with
nonnegative endpoints are List.take / List.drop (both clamp exactly as
Python slices do); the function performs no index validation. -/
def generate_two_opt_neighbor (tour : List α) (segment_start segment_end : ℕ) : List α :=
  tour.take segment_start ++
    ((tour.drop segment_start).take (segment_end + 1 - segment_start)).reverse ++
    tour.drop (segment_end + 1)

/-- Exponential cooling schedule data, as in class ExponentialSchedule. -/
structure ExponentialSchedule where
  initial : ℚ
  rate : ℚ

/-- Embeds ExponentialSchedule.temperature_at_iteration:
initial * rate ** iteration. -/
def ExponentialSchedule.temperature_at_iteration (s : ExponentialSchedule)
    (iteration : ℕ) : ℚ :=
  s.initial * s.rate ^ iteration

/-- Linear cooling schedule data, as in class LinearSchedule. -/
structure LinearSchedule where
  initial : ℚ
  decrement : ℚ

/-- Embeds LinearSchedule.temperature_at_iteration:
max(0, initial - decrement * iteration). -/
def LinearSchedule.temperature_at_iteration (s : LinearSchedule)
    (iteration : ℕ) : ℚ :=
  max 0 (s.initial - s.decrement * (iteration : ℚ))

/-- Embeds metropolis_acceptance in Task1b.py.  expf models math.exp and r
models the random.random() draw the source takes at the final comparison;
when the candidate improves, the source returns before drawing, and the
unused r does not influence the result here either. -/
def metropolis_acceptance (expf : ℚ → ℚ) (current_cost candidate_cost : ℚ)
    (temperature : ℚ) (r : ℚ) : Bool :=
  if candidate_cost < current_cost then
    true
  else
    let energy_increase := candidate_cost - current_cost
    let acceptance_prob :=
      if temperature > 0 then expf (-energy_increase / temperature) else 0
    decide (r < acceptance_prob)

/-- The mutable state of TSPSimulatedAnnealingSolver.solve: current tour and
distance, best tour and distance. -/
structure SolverState where
  currentTour : List ℕ
  currentDist : ℚ
  bestTour : List ℕ
  bestDist : ℚ
deriving DecidableEq

/-- One execution of the loop body of TSPSimulatedAnnealingSolver.solve
(after the temperature check): draw idx1, idx2, swap so idx1 <= idx2, skip
when equal, otherwise build the 2-opt neighbor, evaluate it with cost, and
accept or reject with metropolis_acceptance using the draw r. -/
def solveStep (expf : ℚ → ℚ) (cost : List ℕ → ℚ) (temperature : ℚ)
    (idx1 idx2 : ℕ) (r : ℚ) (st : SolverState) : SolverState :=
  let i := if idx1 > idx2 then idx2 else idx1
  let j := if idx1 > idx2 then idx1 else idx2
  if i = j then st
  else
    let neighbor_tour := generate_two_opt_neighbor st.currentTour i j
    let neighbor_distance := cost neighbor_tour
    if metropolis_acceptance expf st.currentDist neighbor_distance temperature r then
      if neighbor_distance < st.bestDist then
        { currentTour := neighbor_tour, currentDist := neighbor_distance,
          bestTour := neighbor_tour, bestDist := neighbor_distance }
      else
        { st with currentTour := neighbor_tour, currentDist := neighbor_distance }
    else st

/-- Result of a solver run: the returned pair together with the
iterations_performed counter the solver records. -/
structure SolveResult where
  bestTour : List ℕ
  bestDist : ℚ
  iterationsPerformed : ℕ
deriving DecidableEq

/-- The iteration loop of TSPSimulatedAnnealingSolver.solve.  k is the Python
loop variable and fuel the remaining iterations (max_iterations at the start,
assumed positive as in the source defaults).  On the temperature break at
iteration k the recorded count is k + 1 (iteration + 1 in the source); on
normal exhaustion it is the total number of loop entries.  With zero cities
the source calls random.randint(0, -1), which raises ValueError; this is the
error branch. -/
def solveLoop (expf : ℚ → ℚ) (cost : List ℕ → ℚ) (num_cities : ℕ)
    (temperature_at : ℕ → ℚ) (min_temperature : ℚ) (draws : ℕ → ℕ × ℕ × ℚ) :
    SolverState → ℕ → ℕ → Except String (SolverState × ℕ)
  | st, k, 0 => .ok (st, k)
  | st, k, fuel + 1 =>
    if temperature_at k < min_temperature then .ok (st, k + 1)
    else if num_cities = 0 then .error "empty range for randrange()"
    else
      solveLoop expf cost num_cities temperature_at min_temperature draws
        (solveStep expf cost (temperature_at k) (draws k).1 (draws k).2.1 (draws k).2.2 st)
        (k + 1) fuel

/-- Embeds TSPSimulatedAnnealingSolver.solve: the initial tour (the shuffled
permutation random.shuffle produces) seeds both current and best state, then
the loop runs for at most max_iterations iterations. -/
def solve (expf : ℚ → ℚ) (cost : List ℕ → ℚ) (num_cities : ℕ) (initTour : List ℕ)
    (temperature_at : ℕ → ℚ) (max_iterations : ℕ) (min_temperature : ℚ)
    (draws : ℕ → ℕ × ℕ × ℚ) : Except String SolveResult :=
  match solveLoop expf cost num_cities temperature_at min_temperature draws
      { currentTour := initTour, currentDist := cost initTour,
        bestTour := initTour, bestDist := cost initTour } 0 max_iterations with
  | .ok (st, n) => .ok { bestTour := st.bestTour, bestDist := st.bestDist,
                         iterationsPerformed := n }
  | .error e => .error e

/-- The solver state at the start of iteration n of the loop in solve (init
at n = 0).  The move at iteration n executes exactly when no iteration m with
m at most n has tripped the temperature break, which is how the sequential
break in the source behaves; after a break the state is frozen. -/
def runState (expf : ℚ → ℚ) (cost : List ℕ → ℚ) (temperature_at : ℕ → ℚ)
    (min_temperature : ℚ) (draws : ℕ → ℕ × ℕ × ℚ) (init : SolverState) :
    ℕ → SolverState
  | 0 => init
  | n + 1 =>
    if (List.range (n + 1)).all fun m => !decide (temperature_at m < min_temperature) then
      solveStep expf cost (temperature_at n) (draws n).1 (draws n).2.1 (draws n).2.2
        (runState expf cost temperature_at min_temperature draws init n)
    else runState expf cost temperature_at min_temperature draws init n

/-- Equality of solver run results is decidable, so concrete runs can be
checked by evaluation. -/
instance : DecidableEq (Except String SolveResult) := fun a b =>
  match a, b with
  | .ok x, .ok y => decidable_of_iff (x = y) (by simp)
  | .error x, .error y => decidable_of_iff (x = y) (by simp)
  | .ok _, .error _ => isFalse (by simp)
  | .error _, .ok _ => isFalse (by simp)

/-- The two-opt move preserves list length for in-range cut points. -/
theorem two_opt_length (tour : List α) (i j : ℕ) (h1 : i < j) (h2 : j < tour.length) :
    (generate_two_opt_neighbor tour i j).length = tour.length := by
  simp only [generate_two_opt_neighbor, List.length_append, List.length_reverse,
    List.length_take, List.length_drop]
  omega

/-- Pointwise description of the two-opt move for in-range cut points: the
entry at position k is unchanged outside the closed interval from i to j and
mirrored to position i + j - k inside it. -/
theorem two_opt_getElem (tour : List α) (i j k : ℕ) (h1 : i < j) (h2 : j < tour.length) :
    (generate_two_opt_neighbor tour i j)[k]? =
      if k < i then tour[k]?
      else if k ≤ j then tour[i + j - k]?
      else tour[k]? := by
  have hA : (tour.take i).length = i := by
    rw [List.length_take]; omega
  have hM : ((tour.drop i).take (j + 1 - i)).length = j + 1 - i := by
    rw [List.length_take, List.length_drop]; omega
  have hR : (((tour.drop i).take (j + 1 - i)).reverse).length = j + 1 - i := by
    rw [List.length_reverse]; exact hM
  unfold generate_two_opt_neighbor
  rw [List.append_assoc, List.getElem?_append, hA]
  by_cases hk1 : k < i
  · rw [if_pos hk1, if_pos hk1, List.getElem?_take, if_pos hk1]
  · rw [if_neg hk1, if_neg hk1, List.getElem?_append, hR]
    by_cases hk2 : k ≤ j
    · rw [if_pos hk2, if_pos (show k - i < j + 1 - i by omega),
        List.getElem?_reverse (by rw [hM]; omega), hM,
        List.getElem?_take, if_pos (show j + 1 - i - 1 - (k - i) < j + 1 - i by omega),
        List.getElem?_drop]
      have hidx : i + (j + 1 - i - 1 - (k - i)) = i + j - k := by omega
      rw [hidx]
    · rw [if_neg hk2, if_neg (show ¬ k - i < j + 1 - i by omega), List.getElem?_drop]
      have hidx : j + 1 + (k - i - (j + 1 - i)) = k := by omega
      rw [hidx]

/-- The two-opt move permutes the tour: the output is obtained from the input
by reversing a contiguous slice, so it has the same multiset of entries. -/
theorem two_opt_perm (tour : List α) (i j : ℕ) (h1 : i ≤ j) :
    (generate_two_opt_neighbor tour i j).Perm tour := by
  have hd : (tour.drop i).drop (j + 1 - i) = tour.drop (j + 1) := by
    rw [List.drop_drop]
    congr 1
    omega
  conv_rhs => rw [← List.take_append_drop i tour,
    ← List.take_append_drop (j + 1 - i) (tour.drop i), hd]
  unfold generate_two_opt_neighbor
  rw [List.append_assoc]
  exact List.Perm.append_left _ (List.Perm.append_right _ (List.reverse_perm _))

/-- C1: metropolis_acceptance accepts every strict improvement regardless of
temperature and draw; otherwise, for positive temperature it accepts exactly
when the draw r is below expf applied to the negated scaled energy increase
(expf models math.exp), and for non-positive temperature it always rejects
(the draw is in the unit interval, so it is never below probability 0). -/
theorem metropolis_acceptance_spec (expf : ℚ → ℚ) (c c' T r : ℚ) :
    (c' < c → metropolis_acceptance expf c c' T r = true) ∧
    (¬ c' < c → 0 < T →
      (metropolis_acceptance expf c c' T r = true ↔ r < expf (-(c' - c) / T))) ∧
    (¬ c' < c → T ≤ 0 → 0 ≤ r → metropolis_acceptance expf c c' T r = false) := by
  refine ⟨fun h => ?_, fun h hT => ?_, fun h hT hr => ?_⟩
  · simp [metropolis_acceptance, h]
  · simp [metropolis_acceptance, h, hT]
  · simp only [metropolis_acceptance, if_neg h, if_neg (not_lt.mpr hT)]
    simpa using not_lt.mpr hr

/-- Witness for C1 at concrete inputs. -/
theorem metropolis_acceptance_spec_witness :
    metropolis_acceptance (fun _ => 1 / 2) 5 10 0 0 = false :=
  (metropolis_acceptance_spec (fun _ => 1 / 2) 5 10 0 0).2.2
    (by norm_num) (by norm_num) (by norm_num)

/-- C2: for cut points with i < j < N, generate_two_opt_neighbor returns a
new tour of the same length whose positions below i and above j are unchanged
and whose closed sub-sequence from i to j is reversed (position k holds the
input entry at i + j - k); the literal reference scenario holds.  The input
list is a value here, so the move has no side effect on it by construction. -/
theorem two_opt_move_spec (tour : List ℕ) (i j : ℕ) (h1 : i < j) (h2 : j < tour.length) :
    (generate_two_opt_neighbor tour i j).length = tour.length ∧
    (∀ k, k < i → (generate_two_opt_neighbor tour i j)[k]? = tour[k]?) ∧
    (∀ k, i ≤ k → k ≤ j → (generate_two_opt_neighbor tour i j)[k]? = tour[i + j - k]?) ∧
    (∀ k, j < k → (generate_two_opt_neighbor tour i j)[k]? = tour[k]?) ∧
    generate_two_opt_neighbor ([0, 1, 2, 3, 4] : List ℕ) 1 3 = [0, 3, 2, 1, 4] := by
  refine ⟨two_opt_length tour i j h1 h2, fun k hk => ?_, fun k hk hk2 => ?_,
    fun k hk => ?_, by decide⟩
  · rw [two_opt_getElem tour i j k h1 h2, if_pos hk]
  · rw [two_opt_getElem tour i j k h1 h2, if_neg (by omega), if_pos hk2]
  · rw [two_opt_getElem tour i j k h1 h2, if_neg (by omega), if_neg (by omega)]

/-- Witness for C2 at the reference scenario. -/
theorem two_opt_move_spec_witness :
    (generate_two_opt_neighbor ([0, 1, 2, 3, 4] : List ℕ) 1 3).length =
      ([0, 1, 2, 3, 4] : List ℕ).length ∧
    (generate_two_opt_neighbor ([0, 1, 2, 3, 4] : List ℕ) 1 3)[0]? =
      ([0, 1, 2, 3, 4] : List ℕ)[0]? ∧
    (generate_two_opt_neighbor ([0, 1, 2, 3, 4] : List ℕ) 1 3)[2]? =
      ([0, 1, 2, 3, 4] : List ℕ)[1 + 3 - 2]? ∧
    (generate_two_opt_neighbor ([0, 1, 2, 3, 4] : List ℕ) 1 3)[4]? =
      ([0, 1, 2, 3, 4] : List ℕ)[4]? := by
  have h := two_opt_move_spec [0, 1, 2, 3, 4] 1 3 (by decide) (by decide)
  exact ⟨h.1, h.2.1 0 (by decide), h.2.2.1 2 (by decide) (by decide),
    h.2.2.2.1 4 (by decide)⟩

/-- C3: if the input tour is a permutation of the index range below N and the
cut points satisfy i < j < N, the generated neighbor is again a permutation
of that range, with the same length as the input. -/
theorem two_opt_permutation_invariant (tour : List ℕ) (N i j : ℕ) (h1 : i < j)
    (h2 : j < N) (hperm : tour.Perm (List.range N)) :
    (generate_two_opt_neighbor tour i j).Perm (List.range N) ∧
    (generate_two_opt_neighbor tour i j).length = tour.length := by
  have hp : (generate_two_opt_neighbor tour i j).Perm tour :=
    two_opt_perm tour i j (Nat.le_of_lt h1)
  exact ⟨hp.trans hperm, hp.length_eq⟩

/-- Witness for C3 at a concrete permutation. -/
theorem two_opt_permutation_invariant_witness :
    (generate_two_opt_neighbor ([2, 0, 1, 4, 3] : List ℕ) 1 3).Perm (List.range 5) ∧
    (generate_two_opt_neighbor ([2, 0, 1, 4, 3] : List ℕ) 1 3).length =
      ([2, 0, 1, 4, 3] : List ℕ).length :=
  two_opt_permutation_invariant [2, 0, 1, 4, 3] 5 1 3 (by decide) (by decide) (by decide)

/-- C10: applying the two-opt move twice with the same in-range cut points
returns the original tour (reversing the same slice twice is the identity). -/
theorem two_opt_involutive (tour : List α) (i j : ℕ) (h1 : i < j) (h2 : j < tour.length) :
    generate_two_opt_neighbor (generate_two_opt_neighbor tour i j) i j = tour := by
  have hlen := two_opt_length tour i j h1 h2
  apply List.ext_getElem?
  intro k
  rw [two_opt_getElem _ i j k h1 (by omega)]
  by_cases hk1 : k < i
  · rw [if_pos hk1, two_opt_getElem tour i j k h1 h2, if_pos hk1]
  · rw [if_neg hk1]
    by_cases hk2 : k ≤ j
    · rw [if_pos hk2, two_opt_getElem tour i j (i + j - k) h1 h2,
        if_neg (by omega), if_pos (by omega)]
      have hidx : i + j - (i + j - k) = k := by omega
      rw [hidx]
    · rw [if_neg hk2, two_opt_getElem tour i j k h1 h2, if_neg hk1, if_neg hk2]

/-- Witness for C10 at a concrete tour. -/
theorem two_opt_involutive_witness :
    generate_two_opt_neighbor (generate_two_opt_neighbor ([0, 1, 2, 3, 4] : List ℕ) 1 3)
      1 3 = [0, 1, 2, 3, 4] :=
  two_opt_involutive [0, 1, 2, 3, 4] 1 3 (by decide) (by decide)

/-- C7 counterexample: with mis-ordered cut points the code does not signal
any error condition; it silently returns a list.  At cut points 2, 1 it
returns the input unchanged, and at 3, 1 it even returns a six-element list
that is not a permutation of the input. -/
theorem two_opt_no_range_check_counterexample :
    generate_two_opt_neighbor ([0, 1, 2, 3, 4] : List ℕ) 2 1 = [0, 1, 2, 3, 4] ∧
    generate_two_opt_neighbor ([0, 1, 2, 3, 4] : List ℕ) 3 1 = [0, 1, 2, 2, 3, 4] ∧
    ¬ (generate_two_opt_neighbor ([0, 1, 2, 3, 4] : List ℕ) 3 1).Perm [0, 1, 2, 3, 4] :=
  ⟨by decide, by decide, by decide⟩

/-- C7 amended: generate_two_opt_neighbor enforces no precondition on its cut
points; Python slicing makes it total.  For mis-ordered cut points j < i the
reversed middle slice is empty and the result is tour.take i followed by
tour.drop (j + 1), which duplicates the entries at positions j + 1 up to
i - 1 instead of signaling a condition such as InvalidRange. -/
theorem two_opt_no_range_check (tour : List α) (i j : ℕ) (h : j < i) :
    generate_two_opt_neighbor tour i j = tour.take i ++ tour.drop (j + 1) := by
  unfold generate_two_opt_neighbor
  have hz : j + 1 - i = 0 := by omega
  rw [hz]
  simp

/-- Witness for the amended C7 at concrete mis-ordered cut points. -/
theorem two_opt_no_range_check_witness :
    (1 : ℕ) < 3 ∧
    generate_two_opt_neighbor ([0, 1, 2, 3, 4] : List ℕ) 3 1 =
      List.take 3 [0, 1, 2, 3, 4] ++ List.drop 2 [0, 1, 2, 3, 4] :=
  ⟨by decide, two_opt_no_range_check [0, 1, 2, 3, 4] 3 1 (by decide)⟩

/-- C5: the exponential schedule returns exactly initial * rate ^ k, the
linear schedule returns exactly max 0 (initial - decrement * k) and is never
negative, and the two concrete scenarios from the spec hold. -/
theorem cooling_schedule_spec :
    (∀ (initial rate : ℚ) (k : ℕ),
      (ExponentialSchedule.mk initial rate).temperature_at_iteration k =
        initial * rate ^ k) ∧
    (∀ (initial decrement : ℚ) (k : ℕ),
      (LinearSchedule.mk initial decrement).temperature_at_iteration k =
        max 0 (initial - decrement * (k : ℚ))) ∧
    (∀ (initial decrement : ℚ) (k : ℕ),
      0 ≤ (LinearSchedule.mk initial decrement).temperature_at_iteration k) ∧
    (ExponentialSchedule.mk 1000 (9995 / 10000)).temperature_at_iteration 0 = 1000 ∧
    (LinearSchedule.mk 1000 (2 / 10)).temperature_at_iteration 6000 = 0 := by
  refine ⟨fun a b k => rfl, fun a b k => rfl,
    fun a b k => le_max_left 0 _, ?_, ?_⟩
  · simp [ExponentialSchedule.temperature_at_iteration]
  · rw [LinearSchedule.temperature_at_iteration, max_eq_left (by norm_num)]

/-- Sum form of the accumulating loop in evaluate_tour_length. -/
theorem foldl_add_distance (f : ℕ → ℝ) (l : List ℕ) (a : ℝ) :
    l.foldl (fun acc i => acc + f i) a = a + (l.map f).sum := by
  induction l generalizing a with
  | nil => simp
  | cons x xs ih => simp [ih, add_assoc]

/-- C8 counterexample: on a tour of length 0 evaluate_tour_length does not
signal any condition; the loop body never runs and the function returns the
initial accumulator 0.0. -/
theorem tour_length_empty_counterexample :
    evaluate_tour_length [] [(0, 0)] = 0 := by
  simp [evaluate_tour_length]

/-- C8 amended: for every tour of positive length, evaluate_tour_length
returns the cyclic sum of segment distances over all positions (index i to
index (i + 1) mod N); for a one-entry tour the value is 0 (the self-loop
distance); and for the empty tour it returns 0.0 instead of signaling a
condition such as InvalidInput. -/
theorem tour_length_spec (tour : List ℕ) (cities : List Point) (h : 1 ≤ tour.length) :
    evaluate_tour_length tour cities =
      ((List.range tour.length).map fun position =>
        distance_between (cities.getD (tour.getD position 0) (0, 0))
          (cities.getD (tour.getD ((position + 1) % tour.length) 0) (0, 0))).sum ∧
    (∀ (c : ℕ) (cs : List Point), evaluate_tour_length [c] cs = 0) ∧
    (∀ cs : List Point, evaluate_tour_length [] cs = 0) := by
  refine ⟨?_, fun c cs => ?_, fun cs => by simp [evaluate_tour_length]⟩
  · rw [evaluate_tour_length, foldl_add_distance, zero_add]
  · simp [evaluate_tour_length, distance_between, List.range_succ]

/-- Witness for the amended C8 at a concrete one-entry tour. -/
theorem tour_length_spec_witness : evaluate_tour_length [5] [] = 0 :=
  (tour_length_spec [0] [(0, 0)] (by decide)).2.1 5 []

/-- In one loop-body step the recorded best pair either stays exactly as it
was, or is replaced and the new best distance is strictly smaller and equals
the new current distance. -/
theorem solveStep_best (expf : ℚ → ℚ) (cost : List ℕ → ℚ) (t : ℚ) (a b : ℕ)
    (r : ℚ) (st : SolverState) :
    ((solveStep expf cost t a b r st).bestDist = st.bestDist ∧
      (solveStep expf cost t a b r st).bestTour = st.bestTour) ∨
    ((solveStep expf cost t a b r st).bestDist < st.bestDist ∧
      (solveStep expf cost t a b r st).bestDist =
        (solveStep expf cost t a b r st).currentDist) := by
  simp only [solveStep]
  split_ifs <;>
    first
      | exact Or.inl ⟨rfl, rfl⟩
      | (rename_i hlt; exact Or.inr ⟨hlt, rfl⟩)

/-- Between consecutive iterations the recorded best distance never grows. -/
theorem runState_best_step (expf : ℚ → ℚ) (cost : List ℕ → ℚ) (Tf : ℕ → ℚ)
    (minT : ℚ) (draws : ℕ → ℕ × ℕ × ℚ) (init : SolverState) (n : ℕ) :
    (runState expf cost Tf minT draws init (n + 1)).bestDist ≤
      (runState expf cost Tf minT draws init n).bestDist := by
  rw [runState]
  split_ifs with hb
  · rcases solveStep_best expf cost (Tf n) (draws n).1 (draws n).2.1 (draws n).2.2
      (runState expf cost Tf minT draws init n) with h | h
    · exact le_of_eq h.1
    · exact le_of_lt h.1
  · exact le_refl _

/-- C4: over a run of the solver loop the recorded best distance is
monotonically non-increasing, and whenever the recorded best pair changes
between an iteration and the next, the new best distance strictly improves on
the previous one and equals the current distance that replaced it. -/
theorem best_cost_monotone (expf : ℚ → ℚ) (cost : List ℕ → ℚ) (Tf : ℕ → ℚ)
    (minT : ℚ) (draws : ℕ → ℕ × ℕ × ℚ) (init : SolverState) (m n k : ℕ)
    (hmn : m ≤ n) :
    (runState expf cost Tf minT draws init n).bestDist ≤
      (runState expf cost Tf minT draws init m).bestDist ∧
    ((runState expf cost Tf minT draws init (k + 1)).bestDist ≠
        (runState expf cost Tf minT draws init k).bestDist ∨
      (runState expf cost Tf minT draws init (k + 1)).bestTour ≠
        (runState expf cost Tf minT draws init k).bestTour →
      (runState expf cost Tf minT draws init (k + 1)).bestDist <
        (runState expf cost Tf minT draws init k).bestDist ∧
      (runState expf cost Tf minT draws init (k + 1)).bestDist =
        (runState expf cost Tf minT draws init (k + 1)).currentDist) := by
  constructor
  · clear k
    induction n with
    | zero => cases Nat.le_zero.mp hmn; exact le_refl _
    | succ n ih =>
      rcases eq_or_lt_of_le hmn with rfl | hlt
      · exact le_refl _
      · exact le_trans (runState_best_step expf cost Tf minT draws init n)
          (ih (by omega))
  · intro hchange
    rw [runState] at hchange ⊢
    split_ifs at hchange ⊢ with hb
    · rcases solveStep_best expf cost (Tf k) (draws k).1 (draws k).2.1 (draws k).2.2
        (runState expf cost Tf minT draws init k) with h | h
      · exact absurd h (by tauto)
      · exact h
    · exact absurd rfl (by tauto)

/-- Witness for C4 at a concrete run. -/
theorem best_cost_monotone_witness :
    (runState (fun _ => 1) (fun _ => 0) (fun _ => 1000) 0 (fun _ => (0, 1, 0))
        { currentTour := [0, 1], currentDist := 7, bestTour := [0, 1], bestDist := 7 }
        1).bestDist ≤
      (runState (fun _ => 1) (fun _ => 0) (fun _ => 1000) 0 (fun _ => (0, 1, 0))
        { currentTour := [0, 1], currentDist := 7, bestTour := [0, 1], bestDist := 7 }
        0).bestDist ∧
    ((runState (fun _ => 1) (fun _ => 0) (fun _ => 1000) 0 (fun _ => (0, 1, 0))
        { currentTour := [0, 1], currentDist := 7, bestTour := [0, 1], bestDist := 7 }
        (0 + 1)).bestDist ≠
      (runState (fun _ => 1) (fun _ => 0) (fun _ => 1000) 0 (fun _ => (0, 1, 0))
        { currentTour := [0, 1], currentDist := 7, bestTour := [0, 1], bestDist := 7 }
        0).bestDist ∨
      (runState (fun _ => 1) (fun _ => 0) (fun _ => 1000) 0 (fun _ => (0, 1, 0))
        { currentTour := [0, 1], currentDist := 7, bestTour := [0, 1], bestDist := 7 }
        (0 + 1)).bestTour ≠
      (runState (fun _ => 1) (fun _ => 0) (fun _ => 1000) 0 (fun _ => (0, 1, 0))
        { currentTour := [0, 1], currentDist := 7, bestTour := [0, 1], bestDist := 7 }
        0).bestTour →
      (runState (fun _ => 1) (fun _ => 0) (fun _ => 1000) 0 (fun _ => (0, 1, 0))
        { currentTour := [0, 1], currentDist := 7, bestTour := [0, 1], bestDist := 7 }
        (0 + 1)).bestDist <
      (runState (fun _ => 1) (fun _ => 0) (fun _ => 1000) 0 (fun _ => (0, 1, 0))
        { currentTour := [0, 1], currentDist := 7, bestTour := [0, 1], bestDist := 7 }
        0).bestDist ∧
      (runState (fun _ => 1) (fun _ => 0) (fun _ => 1000) 0 (fun _ => (0, 1, 0))
        { currentTour := [0, 1], currentDist := 7, bestTour := [0, 1], bestDist := 7 }
        (0 + 1)).bestDist =
      (runState (fun _ => 1) (fun _ => 0) (fun _ => 1000) 0 (fun _ => (0, 1, 0))
        { currentTour := [0, 1], currentDist := 7, bestTour := [0, 1], bestDist := 7 }
        (0 + 1)).currentDist) :=
  best_cost_monotone (fun _ => 1) (fun _ => 0) (fun _ => 1000) 0 (fun _ => (0, 1, 0))
    { currentTour := [0, 1], currentDist := 7, bestTour := [0, 1], bestDist := 7 }
    0 1 0 (by decide)

/-- When the temperature never falls below the threshold and every draw
yields an equal index pair, the loop consumes all its iterations without ever
changing the state (each iteration hits the skip branch). -/
theorem solveLoop_skip (expf : ℚ → ℚ) (cost : List ℕ → ℚ) (n : ℕ) (Tf : ℕ → ℚ)
    (minT : ℚ) (draws : ℕ → ℕ × ℕ × ℚ) (hT : ∀ m, ¬ Tf m < minT)
    (hdr : ∀ m, (draws m).1 = (draws m).2.1) (hn : n ≠ 0) :
    ∀ (fuel k : ℕ) (st : SolverState),
      solveLoop expf cost n Tf minT draws st k fuel = .ok (st, k + fuel) := by
  intro fuel
  induction fuel with
  | zero => intro k st; rw [solveLoop, Nat.add_zero]
  | succ f ih =>
    intro k st
    rw [solveLoop, if_neg (hT k), if_neg hn]
    have hstep : solveStep expf cost (Tf k) (draws k).1 (draws k).2.1 (draws k).2.2 st
        = st := by
      simp [solveStep, hdr k]
    rw [hstep, ih (k + 1) st]
    have : k + 1 + f = k + (f + 1) := by omega
    rw [this]

/-- C6 counterexample: a concrete run with a single city returns the
one-element tour with cost 0 but reports 3 iterations performed, not 0. -/
theorem solve_single_city_counterexample :
    solve (fun _ => 1) (fun _ => 0) 1 [0] (fun _ => 1000) 3 0 (fun _ => (0, 0, 0)) =
      .ok { bestTour := [0], bestDist := 0, iterationsPerformed := 3 } ∧
    (3 : ℕ) ≠ 0 :=
  ⟨by decide, by decide⟩

/-- C6 amended: solve performs no input validation.  With one city it returns
the one-element tour with the cost of that tour, but the loop still consumes
iterations: every index draw yields the equal pair 0, 0 and is skipped, so
with the temperature always at or above the threshold all max_iterations are
consumed and reported.  With zero cities and at least one iteration to run,
the first executed iteration raises when drawing from the empty index range
(random.randint(0, -1)), so no result is returned. -/
theorem solve_no_input_validation (expf : ℚ → ℚ) (cost : List ℕ → ℚ) (Tf : ℕ → ℚ)
    (minT : ℚ) (maxIter : ℕ) (r : ℚ) (hT : ∀ m, ¬ Tf m < minT) :
    solve expf cost 1 [0] Tf maxIter minT (fun _ => (0, 0, r)) =
      .ok { bestTour := [0], bestDist := cost [0], iterationsPerformed := maxIter } ∧
    (1 ≤ maxIter →
      solve expf cost 0 [] Tf maxIter minT (fun _ => (0, 0, r)) =
        .error "empty range for randrange()") := by
  constructor
  · unfold solve
    rw [solveLoop_skip expf cost 1 Tf minT (fun _ => (0, 0, r)) hT (fun m => rfl)
      one_ne_zero maxIter 0]
    simp
  · intro hge
    obtain ⟨f, rfl⟩ : ∃ f, maxIter = f + 1 := ⟨maxIter - 1, by omega⟩
    unfold solve
    rw [solveLoop, if_neg (hT 0), if_pos rfl]

/-- Witness for the amended C6 at concrete inputs. -/
theorem solve_no_input_validation_witness :
    solve (fun _ => (1 : ℚ)) (fun _ => (0 : ℚ)) 1 [0] (fun _ => 1000) 2 0
        (fun _ => (0, 0, 0)) =
      .ok { bestTour := [0], bestDist := 0, iterationsPerformed := 2 } ∧
    solve (fun _ => (1 : ℚ)) (fun _ => (0 : ℚ)) 0 [] (fun _ => 1000) 2 0
        (fun _ => (0, 0, 0)) =
      .error "empty range for randrange()" := by
  have h := solve_no_input_validation (fun _ => (1 : ℚ)) (fun _ => (0 : ℚ))
    (fun _ => 1000) 0 2 0 (fun m => by norm_num)
  exact ⟨h.1, h.2 (by norm_num)⟩

/-- C9: a solver run is a pure function of its inputs and of the random
values consumed (the shuffled initial tour, the per-iteration index draws and
acceptance draws).  Two runs whose schedules, cost functions, exponential
functions, initial tours and random streams agree pointwise produce identical
results: identical best tour, best cost and iteration count.  Seeding the
global generator identically yields identical streams, so seeded runs are
reproducible. -/
theorem solve_deterministic (expf₁ expf₂ : ℚ → ℚ) (cost₁ cost₂ : List ℕ → ℚ)
    (num_cities : ℕ) (initTour₁ initTour₂ : List ℕ) (Tf₁ Tf₂ : ℕ → ℚ)
    (max_iterations : ℕ) (min_temperature : ℚ) (draws₁ draws₂ : ℕ → ℕ × ℕ × ℚ)
    (hexp : ∀ x, expf₁ x = expf₂ x) (hcost : ∀ t, cost₁ t = cost₂ t)
    (hinit : initTour₁ = initTour₂) (hT : ∀ k, Tf₁ k = Tf₂ k)
    (hdraws : ∀ k, draws₁ k = draws₂ k) :
    solve expf₁ cost₁ num_cities initTour₁ Tf₁ max_iterations min_temperature draws₁ =
      solve expf₂ cost₂ num_cities initTour₂ Tf₂ max_iterations min_temperature draws₂ := by
  obtain rfl : expf₁ = expf₂ := funext hexp
  obtain rfl : cost₁ = cost₂ := funext hcost
  obtain rfl : initTour₁ = initTour₂ := hinit
  obtain rfl : Tf₁ = Tf₂ := funext hT
  obtain rfl : draws₁ = draws₂ := funext hdraws
  rfl

/-- Witness for C9 at concrete equal inputs. -/
theorem solve_deterministic_witness :
    solve (fun _ => 1) (fun _ => 0) 2 [0, 1] (fun _ => 5) 1 0 (fun _ => (0, 1, 0)) =
      solve (fun _ => 1) (fun _ => 0) 2 [0, 1] (fun _ => 5) 1 0 (fun _ => (0, 1, 0)) :=
  solve_deterministic (fun _ => 1) (fun _ => 1) (fun _ => 0) (fun _ => 0) 2 [0, 1]
    [0, 1] (fun _ => 5) (fun _ => 5) 1 0 (fun _ => (0, 1, 0)) (fun _ => (0, 1, 0))
    (fun _ => rfl) (fun _ => rfl) rfl (fun _ => rfl) (fun _ => rfl)

end Task1b
